import Mathlib

/-!
Shallow embedding of the subterm-gateway sandbox lifecycle manager
(src/index.js and src/timeout.js): the admission controller over the
Redis capacity counter, the session registry, the provisioning handler
with its disk-quota fallback, and the inactivity evictor.
-/

/-- State of the Redis capacity counter key `containers:active`;
`none` means the key is absent from the store. -/
abbrev CounterState := Option Int

/-- The integer value observed by the Lua script and by DECR: an absent
key reads as 0 (`tonumber(redis.call('GET', KEYS[1]) or 0)`). -/
def counterVal (s : CounterState) : Int := s.getD 0

/-- `LUA_RESERVE` (src/index.js lines 30-32): read the counter (absent = 0);
if `cur >= MAX` return -1 without mutation; otherwise INCR and return the
new value. -/
def luaReserve (maxC : Int) (s : CounterState) : Int × CounterState :=
  let cur := counterVal s
  if maxC ≤ cur then (-1, s)
  else (cur + 1, some (cur + 1))

/-- `reserveContainerSlot` (src/index.js lines 34-42): run the script;
the slot is granted iff the result is not -1. -/
def reserveContainerSlot (maxC : Int) (s : CounterState) : Bool × CounterState :=
  let r := luaReserve maxC s
  (r.1 != -1, r.2)

/-- Redis DECR: an absent key is treated as 0; the decremented value is
stored and returned. -/
def redisDecr (s : CounterState) : Int × CounterState :=
  let v := counterVal s - 1
  (v, some v)

/-- `releaseContainerSlot` (src/index.js lines 44-47): DECR, and if the
result went below zero, SET the counter back to 0. -/
def releaseContainerSlot (s : CounterState) : CounterState :=
  let r := redisDecr s
  if r.1 < 0 then some 0 else r.2

/-- Iterated reserve calls (a sequence of provisioning admissions). -/
def reserveIter (maxC : Int) : Nat → CounterState → CounterState
  | 0, s => s
  | n + 1, s => reserveIter maxC n (reserveContainerSlot maxC s).2

theorem releaseContainerSlot_eq (s : CounterState) :
    releaseContainerSlot s = some (max (counterVal s - 1) 0) := by
  unfold releaseContainerSlot redisDecr
  by_cases h : counterVal s - 1 < 0 <;> simp [h] <;> omega

theorem reserveContainerSlot_le (M : Int) (s : CounterState)
    (h : counterVal s ≤ M) :
    counterVal (reserveContainerSlot M s).2 ≤ M := by
  simp only [reserveContainerSlot, luaReserve, counterVal] at *
  split_ifs with hc
  · exact h
  · simp; omega

theorem reserveIter_le (M : Int) (n : Nat) (s : CounterState)
    (h : counterVal s ≤ M) :
    counterVal (reserveIter M n s) ≤ M := by
  induction n generalizing s with
  | zero => exact h
  | succ n ih => exact ih _ (reserveContainerSlot_le M s h)

/-- C1: for every counter value `c ≥ 0`, `reserveContainerSlot` grants iff
`c < MAX`; when `c ≥ MAX` the counter is unchanged, when `c < MAX` it
becomes `c + 1`; consequently `counter ≤ MAX` is preserved by every
reserve operation and any sequence of reserves never drives it past
`MAX`. -/
theorem reserve_slot_spec (M c : Int) (h : 0 ≤ c) :
    (((reserveContainerSlot M (some c)).1 = true) ↔ c < M)
    ∧ (M ≤ c → (reserveContainerSlot M (some c)).2 = some c)
    ∧ (c < M → (reserveContainerSlot M (some c)).2 = some (c + 1))
    ∧ (c ≤ M → ∀ n, counterVal (reserveIter M n (some c)) ≤ M) := by
  refine ⟨?_, ?_, ?_, fun hle n => reserveIter_le M n (some c) hle⟩
  · simp only [reserveContainerSlot, luaReserve, counterVal, Option.getD_some,
      bne_iff_ne, ne_eq]
    split_ifs with hc
    · simp; omega
    · simp; omega
  · intro hle
    simp only [reserveContainerSlot, luaReserve, counterVal, Option.getD_some]
    rw [if_pos hle]
  · intro hlt
    simp only [reserveContainerSlot, luaReserve, counterVal, Option.getD_some]
    rw [if_neg (by omega)]

/-- Witness for C1 at `MAX = 10`, `c = 3`. -/
theorem reserve_slot_spec_witness :
    (((reserveContainerSlot 10 (some 3)).1 = true) ↔ (3 : Int) < 10)
    ∧ ((10 : Int) ≤ 3 → (reserveContainerSlot 10 (some 3)).2 = some 3)
    ∧ ((3 : Int) < 10 → (reserveContainerSlot 10 (some 3)).2 = some 4)
    ∧ ((3 : Int) ≤ 10 → ∀ n, counterVal (reserveIter 10 n (some 3)) ≤ 10) :=
  reserve_slot_spec 10 3 (by norm_num)

/-- C6: `releaseContainerSlot` is safe without a matching reserve: from any
counter state the result is `max (c - 1) 0`, and the counter observed after
a completed release is never negative. -/
theorem release_slot_clamp (s : CounterState) :
    releaseContainerSlot s = some (max (counterVal s - 1) 0)
    ∧ 0 ≤ counterVal (releaseContainerSlot s) := by
  refine ⟨releaseContainerSlot_eq s, ?_⟩
  rw [releaseContainerSlot_eq s]
  simp [counterVal]

/-- C9: on a fresh store (counter key absent) with `MAX ≥ 1`, the first
reserve is granted and the counter afterwards equals 1. -/
theorem reserve_fresh_store (M : Int) (h : 1 ≤ M) :
    (reserveContainerSlot M none).1 = true
    ∧ (reserveContainerSlot M none).2 = some 1 := by
  simp only [reserveContainerSlot, luaReserve, counterVal, Option.getD_none,
    bne_iff_ne, ne_eq]
  split_ifs with hc
  · omega
  · simp

/-- Witness for C9 at `MAX = 10`. -/
theorem reserve_fresh_store_witness :
    (reserveContainerSlot 10 none).1 = true
    ∧ (reserveContainerSlot 10 none).2 = some 1 :=
  reserve_fresh_store 10 (by norm_num)

/-- A session record as serialized at the `session:<id>` key
(src/index.js lines 185-190). -/
structure SessionRecord where
  containerName : String
  workspacePath : String
  createdAt : Int
  lastActive : Int
deriving DecidableEq

/-- State touched by the session registry and admission controller: the
capacity counter, the per-session records (keyed by `session:<id>`), and
the `sessions` membership set. -/
structure GatewayState where
  counter : CounterState
  records : List (String × SessionRecord)
  members : List String
deriving DecidableEq

/-- `SESSION_KEY` (src/index.js line 24). -/
def sessionKey (id : String) : String := "session:" ++ id

/-- Redis DEL on a record key. -/
def redisDel (m : List (String × SessionRecord)) (k : String) :
    List (String × SessionRecord) :=
  m.filter (fun p => p.1 != k)

/-- Redis GET on a record key. -/
def redisGetRecord (m : List (String × SessionRecord)) (k : String) :
    Option SessionRecord :=
  (m.find? (fun p => p.1 == k)).map (fun p => p.2)

/-- Redis SREM on the `sessions` set. -/
def sremMember (s : List String) (id : String) : List String :=
  s.filter (fun x => x != id)

/-- Redis SADD on the `sessions` set. -/
def saddMember (s : List String) (id : String) : List String :=
  if id ∈ s then s else s ++ [id]

/-- `setSession` (src/index.js lines 49-52): SET the record, SADD the id. -/
def setSession (st : GatewayState) (sid : String) (data : SessionRecord) :
    GatewayState :=
  { st with
    records := (sessionKey sid, data) :: redisDel st.records (sessionKey sid),
    members := saddMember st.members sid }

/-- `getSession` (src/index.js lines 54-57). -/
def getSession (st : GatewayState) (sid : String) : Option SessionRecord :=
  redisGetRecord st.records (sessionKey sid)

/-- `deleteSession` (src/index.js lines 59-63): DEL the record, SREM the
id, then release the capacity slot. -/
def deleteSession (st : GatewayState) (sid : String) : GatewayState :=
  { counter := releaseContainerSlot st.counter,
    records := redisDel st.records (sessionKey sid),
    members := sremMember st.members sid }

/-- `getAllSessions` (src/index.js lines 65-78): read the member set,
fetch each record, silently drop ids whose record has vanished. -/
def getAllSessions (st : GatewayState) : List (String × SessionRecord) :=
  st.members.filterMap (fun id => (getSession st id).map (fun r => (id, r)))

theorem redisDel_idem (m : List (String × SessionRecord)) (k : String) :
    redisDel (redisDel m k) k = redisDel m k := by
  simp [redisDel, List.filter_filter]

theorem sremMember_idem (s : List String) (id : String) :
    sremMember (sremMember s id) id = sremMember s id := by
  simp [sremMember, List.filter_filter]

/-- C2 counterexample state: capacity counter at 2 with one live session. -/
def stTwo : GatewayState :=
  { counter := some 2,
    records := [(sessionKey "a", ⟨"sess_a", "/", 0, 0⟩)],
    members := ["a"] }

/-- C2 fails on the code: with the counter at 2, deleting the same session
twice decrements the counter twice (2 → 1 → 0), so the final state differs
from a single delete — `deleteSession` is not idempotent on the counter. -/
theorem deleteSession_not_idempotent :
    deleteSession (deleteSession stTwo "a") "a" ≠ deleteSession stTwo "a"
    ∧ (deleteSession (deleteSession stTwo "a") "a").counter = some 0
    ∧ (deleteSession stTwo "a").counter = some 1 := by
  refine ⟨?_, by decide, by decide⟩
  intro h
  have := congrArg GatewayState.counter h
  simp [deleteSession, stTwo, releaseContainerSlot, redisDecr, counterVal] at this

theorem GatewayState.eq_of_fields {x y : GatewayState}
    (h1 : x.counter = y.counter) (h2 : x.records = y.records)
    (h3 : x.members = y.members) : x = y := by
  cases x; cases y; simp_all

/-- C2 amended: a second `deleteSession` of the same id leaves the record
map and member set unchanged (record and membership idempotently absent,
no error), but it decrements the counter again, clamped at zero; the
two-call and one-call final states coincide exactly when the counter after
the first call is zero. -/
theorem deleteSession_second_call (st : GatewayState) (sid : String) :
    (deleteSession (deleteSession st sid) sid).records
      = (deleteSession st sid).records
    ∧ (deleteSession (deleteSession st sid) sid).members
      = (deleteSession st sid).members
    ∧ (deleteSession (deleteSession st sid) sid).counter
      = some (max (counterVal (deleteSession st sid).counter - 1) 0)
    ∧ (deleteSession (deleteSession st sid) sid = deleteSession st sid
        ↔ (deleteSession st sid).counter = some 0) := by
  refine ⟨redisDel_idem _ _, sremMember_idem _ _, releaseContainerSlot_eq _, ?_⟩
  constructor
  · intro h
    have hc := congrArg GatewayState.counter h
    simp only [deleteSession, releaseContainerSlot_eq, counterVal,
      Option.getD_some, Option.some_inj] at hc ⊢
    omega
  · intro h
    apply GatewayState.eq_of_fields
    · show releaseContainerSlot (deleteSession st sid).counter
        = (deleteSession st sid).counter
      rw [releaseContainerSlot_eq, h]
      simp [counterVal]
    · exact redisDel_idem _ _
    · exact sremMember_idem _ _

/-- One iteration of the eviction sweep loop body (src/timeout.js lines
19-42): skip the session if `now - lastActive < INACTIVITY_TIMEOUT`,
otherwise stop its container (tolerated statuses absorbed) and delete the
session. -/
def evictStep (timeout now : Int) (acc : GatewayState)
    (p : String × SessionRecord) : GatewayState :=
  if now - p.2.lastActive < timeout then acc else deleteSession acc p.1

/-- `cleanupInactiveSessions` (src/timeout.js lines 9-43): read the
session list once, then sweep it. -/
def cleanupInactiveSessions (timeout now : Int) (st : GatewayState) :
    GatewayState :=
  (getAllSessions st).foldl (evictStep timeout now) st

theorem sessionKey_inj {a b : String} (h : sessionKey a = sessionKey b) :
    a = b := by
  have hd : ("session:" ++ a).data = ("session:" ++ b).data :=
    congrArg String.data h
  simp only [String.data_append] at hd
  have h2 := List.append_cancel_left hd
  cases a; cases b
  exact congrArg String.mk h2

theorem mem_getAllSessions {st : GatewayState} {sid : String}
    {r : SessionRecord} :
    (sid, r) ∈ getAllSessions st ↔
      sid ∈ st.members ∧ getSession st sid = some r := by
  simp only [getAllSessions, List.mem_filterMap, Option.map_eq_some']
  constructor
  · rintro ⟨id, hid, r2, hget, heq⟩
    obtain ⟨h1, h2⟩ := Prod.mk.injEq .. ▸ heq
    subst h1; subst h2
    exact ⟨hid, hget⟩
  · rintro ⟨hmem, hget⟩
    exact ⟨sid, hmem, r, hget, rfl⟩

theorem deleteSession_members_subset {st : GatewayState} {sid q : String}
    (h : sid ∉ st.members) : sid ∉ (deleteSession st q).members := by
  simp only [deleteSession, sremMember, List.mem_filter]
  intro hc
  exact h hc.1

theorem deleteSession_not_mem_self (st : GatewayState) (sid : String) :
    sid ∉ (deleteSession st sid).members := by
  simp [deleteSession, sremMember, List.mem_filter]

theorem evictStep_not_mem {T now : Int} {acc : GatewayState} {sid : String}
    (p : String × SessionRecord) (h : sid ∉ acc.members) :
    sid ∉ (evictStep T now acc p).members := by
  unfold evictStep
  split_ifs
  · exact h
  · exact deleteSession_members_subset h

theorem foldl_evict_not_mem {T now : Int} {sid : String}
    (L : List (String × SessionRecord)) (acc : GatewayState)
    (h : sid ∉ acc.members) :
    sid ∉ (L.foldl (evictStep T now) acc).members := by
  induction L generalizing acc with
  | nil => exact h
  | cons p L ih => exact ih _ (evictStep_not_mem p h)

theorem foldl_evict_removes {T now : Int} {sid : String} {r : SessionRecord}
    (L : List (String × SessionRecord)) (acc : GatewayState)
    (hmem : (sid, r) ∈ L) (hold : ¬ (now - r.lastActive < T)) :
    sid ∉ (L.foldl (evictStep T now) acc).members := by
  induction L generalizing acc with
  | nil => cases hmem
  | cons p L ih =>
    rcases List.mem_cons.mp hmem with heq | htail
    · rw [List.foldl_cons]
      apply foldl_evict_not_mem
      rw [← heq]
      show sid ∉ (evictStep T now acc (sid, r)).members
      unfold evictStep
      rw [if_neg hold]
      exact deleteSession_not_mem_self acc sid
    · exact ih _ htail

theorem deleteSession_preserves_other {st : GatewayState} {sid q : String}
    (hne : q ≠ sid) :
    (sid ∈ (deleteSession st q).members ↔ sid ∈ st.members)
    ∧ getSession (deleteSession st q) sid = getSession st sid := by
  constructor
  · simp only [deleteSession, sremMember, List.mem_filter, bne_iff_ne, ne_eq]
    constructor
    · exact fun h => h.1
    · exact fun h => ⟨h, fun hc => hne hc.symm⟩
  · simp only [deleteSession, getSession, redisGetRecord, redisDel]
    have hkey : sessionKey sid ≠ sessionKey q :=
      fun hc => hne (sessionKey_inj hc).symm
    congr 1
    induction st.records with
    | nil => rfl
    | cons p m ih =>
      by_cases hp : p.1 = sessionKey q
      · have h1 : (p.1 != sessionKey q) = false := by simp [hp]
        have h2 : (p.1 == sessionKey sid) = false := by
          simp [hp]
          exact fun hc => hkey hc.symm
        simp only [List.filter_cons, h1, List.find?, h2, Bool.false_eq_true,
          if_false]
        exact ih
      · have h1 : (p.1 != sessionKey q) = true := by simp [hp]
        simp only [List.filter_cons, h1, if_true, List.find?]
        by_cases hs : p.1 = sessionKey sid
        · simp [hs]
        · have h2 : (p.1 == sessionKey sid) = false := by simp [hs]
          simp only [h2, Bool.false_eq_true, if_false]
          exact ih

theorem foldl_evict_preserves {T now : Int} {sid : String} {r : SessionRecord}
    (L : List (String × SessionRecord)) (acc : GatewayState)
    (hmem : sid ∈ acc.members) (hget : getSession acc sid = some r)
    (hfresh : ∀ p ∈ L, p.1 = sid → now - p.2.lastActive < T) :
    sid ∈ (L.foldl (evictStep T now) acc).members
    ∧ getSession (L.foldl (evictStep T now) acc) sid = some r := by
  induction L generalizing acc with
  | nil => exact ⟨hmem, hget⟩
  | cons p L ih =>
    have hstep : sid ∈ (evictStep T now acc p).members
        ∧ getSession (evictStep T now acc p) sid = some r := by
      unfold evictStep
      split_ifs with hlt
      · exact ⟨hmem, hget⟩
      · by_cases hp : p.1 = sid
        · exact absurd (hfresh p (List.mem_cons_self p L) hp) hlt
        · obtain ⟨h1, h2⟩ := @deleteSession_preserves_other acc sid p.1 hp
          exact ⟨h1.mpr hmem, h2.trans hget⟩
    exact ih _ hstep.1 hstep.2
      (fun q hq hqs => hfresh q (List.mem_cons_of_mem p hq) hqs)

/-- C3 amended: the eviction boundary is inclusive. On a tick at time
`now`, a session whose `lastActive` satisfies `now - lastActive ≥
threshold` — including the exact boundary `lastActive = now - threshold` —
IS evicted and absent from `getAllSessions` afterwards; a session with
`now - lastActive < threshold` is left untouched and remains in
`getAllSessions` with its record unchanged. -/
theorem cleanup_eviction_boundary (T now : Int) (st : GatewayState)
    (sid : String) (r : SessionRecord) :
    ((sid, r) ∈ getAllSessions st → T ≤ now - r.lastActive →
      ∀ r2, (sid, r2) ∉ getAllSessions (cleanupInactiveSessions T now st))
    ∧ ((sid, r) ∈ getAllSessions st → now - r.lastActive < T →
      (sid, r) ∈ getAllSessions (cleanupInactiveSessions T now st)) := by
  constructor
  · intro hmem hold r2 hc
    have h1 := (mem_getAllSessions.mp hc).1
    exact foldl_evict_removes (getAllSessions st) st hmem (by omega) h1
  · intro hmem hfresh
    obtain ⟨h1, h2⟩ := mem_getAllSessions.mp hmem
    have hfresh2 : ∀ p ∈ getAllSessions st, p.1 = sid →
        now - p.2.lastActive < T := by
      intro p hp hps
      have hp2 : (sid, p.2) ∈ getAllSessions st := by
        rw [← hps]; exact hp
      have hg := (mem_getAllSessions.mp hp2).2
      rw [h2] at hg
      have : r = p.2 := Option.some.inj hg
      rw [← this]
      exact hfresh
    have := foldl_evict_preserves (getAllSessions st) st h1 h2 hfresh2
    exact mem_getAllSessions.mpr this

/-- A state with one session exactly at the eviction boundary:
`lastActive = 400`, swept at `now = 1000` with threshold 600. -/
def stBoundary : GatewayState :=
  { counter := some 1,
    records := [(sessionKey "s1", ⟨"sess_s1", "/", 0, 400⟩)],
    members := ["s1"] }

/-- C3 fails on the code at the boundary: the sweep evicts when
`now - lastActive >= threshold`, so a session with `lastActive` exactly at
`now - threshold` IS evicted (the claim says it is left untouched). -/
theorem boundary_session_evicted :
    ("s1", (⟨"sess_s1", "/", 0, 400⟩ : SessionRecord)) ∈ getAllSessions stBoundary
    ∧ (1000 : Int) - 400 = 600
    ∧ getAllSessions (cleanupInactiveSessions 600 1000 stBoundary) = [] :=
  ⟨by decide, by decide, by decide⟩

/-- State with one stale and one fresh session, for the C3 witness. -/
def stEv : GatewayState :=
  { counter := some 2,
    records := [(sessionKey "old", ⟨"sess_old", "/", 0, 100⟩),
                (sessionKey "fresh", ⟨"sess_fresh", "/", 0, 500⟩)],
    members := ["old", "fresh"] }

/-- Witness for the amended C3: on a sweep at `now = 1000` with threshold
600, the session idle 900 is evicted and the session idle 500 remains. -/
theorem cleanup_eviction_boundary_witness :
    (∀ r2, ("old", r2) ∉ getAllSessions (cleanupInactiveSessions 600 1000 stEv))
    ∧ ("fresh", (⟨"sess_fresh", "/", 0, 500⟩ : SessionRecord))
        ∈ getAllSessions (cleanupInactiveSessions 600 1000 stEv) :=
  ⟨(cleanup_eviction_boundary 600 1000 stEv "old" ⟨"sess_old", "/", 0, 100⟩).1
      (by decide) (by decide),
   (cleanup_eviction_boundary 600 1000 stEv "fresh"
      ⟨"sess_fresh", "/", 0, 500⟩).2 (by decide) (by decide)⟩

/-- Classification of a runtime (Docker) creation failure, as the spec
distinguishes them: the storage backend not supporting the disk quota
versus any other provisioning error. -/
inductive ErrClass
  | unsupported
  | other
deriving DecidableEq

/-- An error raised by the sandbox runtime. -/
structure RuntimeErr where
  cls : ErrClass
  msg : String
deriving DecidableEq

/-- `HostConfig` of the container configuration (src/index.js lines
135-150). -/
structure HostConfig where
  autoRemove : Bool
  networkMode : String
  tmpfsWorkspace : String
  memory : Int
  memorySwap : Int
  nanoCpus : Int
  pidsLimit : Int
  storageOptSize : Option String
deriving DecidableEq

/-- The container creation configuration (src/index.js lines 129-151). -/
structure ContainerConfig where
  image : String
  name : String
  tty : Bool
  exposedPorts : List String
  env : List String
  hostConfig : HostConfig
deriving DecidableEq

/-- The environment-derived gateway configuration (src/index.js lines
17-18, 117, 123-127, 154). `nanoCpus` stands for the already computed
`Math.round(CPU_CORES * 1e9)`. -/
structure GatewayConfig where
  sandboxImage : String
  networkName : String
  workspaceSize : String
  memoryMb : Int
  nanoCpus : Int
  pidsLimit : Int
  diskLimit : String
deriving DecidableEq

/-- `baseContainerConfig` (src/index.js lines 129-151). -/
def baseContainerConfig (cfg : GatewayConfig) (sessionId : String) :
    ContainerConfig :=
  { image := cfg.sandboxImage,
    name := "sess_" ++ sessionId,
    tty := false,
    exposedPorts := ["3000/tcp"],
    env := ["SESSION_ID=" ++ sessionId, "WORKSPACE_PATH=/workspace"],
    hostConfig :=
      { autoRemove := true,
        networkMode := cfg.networkName,
        tmpfsWorkspace := "rw,size=" ++ cfg.workspaceSize ++ ",mode=755",
        memory := cfg.memoryMb * 1024 * 1024,
        memorySwap := cfg.memoryMb * 1024 * 1024,
        nanoCpus := cfg.nanoCpus,
        pidsLimit := cfg.pidsLimit,
        storageOptSize := none } }

/-- `configWithQuota` (src/index.js lines 157-163): the base configuration
with `StorageOpt: { size: diskLimit }` added. -/
def withQuota (diskLimit : String) (base : ContainerConfig) :
    ContainerConfig :=
  { base with hostConfig :=
      { base.hostConfig with storageOptSize := some diskLimit } }

/-- The creation attempt of src/index.js lines 153-179: `diskLimit`
defaults to `"1G"` so the quota branch is always taken; the quota attempt
is tried first, and on ANY creation error (the `catch (quotaErr)` block)
the base configuration is retried. -/
def createWithFallback (create : ContainerConfig → Except RuntimeErr Unit)
    (diskLimit : String) (base : ContainerConfig) :
    Except RuntimeErr Unit :=
  match create (withQuota diskLimit base) with
  | Except.ok u => Except.ok u
  | Except.error _ => create base

/-- Default gateway configuration (all environment defaults). -/
def defaultCfg : GatewayConfig :=
  { sandboxImage := "subterm-server",
    networkName := "subterm-net",
    workspaceSize := "1G",
    memoryMb := 512,
    nanoCpus := 1000000000,
    pidsLimit := 100,
    diskLimit := "1G" }

/-- A runtime in which the quota attempt fails with an error classified
as `other` (not a missing-feature error), while the base configuration
succeeds. -/
def otherErrCreate : ContainerConfig → Except RuntimeErr Unit := fun c =>
  if c.hostConfig.storageOptSize.isSome then
    Except.error ⟨ErrClass.other, "no such image"⟩
  else Except.ok ()

/-- C4 fails on the code: the `catch` around the quota attempt does not
classify the error. Here the quota attempt fails with an error classified
`other` (a genuine provisioning error, not an unsupported feature), yet
the code still retries with the base configuration and reports success —
the failure is masked instead of propagated. -/
theorem quota_fallback_masks_other_errors :
    otherErrCreate (withQuota "1G" (baseContainerConfig defaultCfg "abc"))
      = Except.error ⟨ErrClass.other, "no such image"⟩
    ∧ createWithFallback otherErrCreate "1G"
        (baseContainerConfig defaultCfg "abc") = Except.ok () := by
  exact ⟨rfl, rfl⟩

/-- C4 amended: the provisioner retries with the base configuration on
EVERY failure of the quota attempt, regardless of its classification; the
overall outcome is then exactly that of the base-configuration attempt, so
only a base-configuration failure propagates as a provisioning error. -/
theorem createWithFallback_any_error
    (create : ContainerConfig → Except RuntimeErr Unit)
    (dl : String) (base : ContainerConfig) (e : RuntimeErr)
    (hq : create (withQuota dl base) = Except.error e) :
    createWithFallback create dl base = create base := by
  unfold createWithFallback
  rw [hq]

/-- Witness for the amended C4: at the concrete runtime above, the
fallback outcome equals the base-configuration outcome. -/
theorem createWithFallback_any_error_witness :
    createWithFallback otherErrCreate "1G"
        (baseContainerConfig defaultCfg "abc")
      = otherErrCreate (baseContainerConfig defaultCfg "abc") :=
  createWithFallback_any_error otherErrCreate "1G"
    (baseContainerConfig defaultCfg "abc")
    ⟨ErrClass.other, "no such image"⟩ rfl

/-- The responses the POST /api/container handler can produce. -/
inductive PostResponse
  | ok (sessionId workspacePath : String)
  | busy
  | serverError (msg : String)
deriving DecidableEq

/-- Outcomes of the external runtime and store calls made by one
provisioning request: the creation oracle, the result of
`container.start()`, and whether the two store writes of `setSession`
go through. -/
structure RuntimeOracle where
  create : ContainerConfig → Except RuntimeErr Unit
  startResult : Except RuntimeErr Unit
  persistResult : Except RuntimeErr Unit

/-- POST /api/container (src/index.js lines 107-209): reserve a slot
(503 when denied); create the container with the quota fallback, start
it, persist the session; any error after the grant lands in the `catch`,
which releases the slot and answers 500. -/
def postContainer (cfg : GatewayConfig) (maxC : Int) (oracle : RuntimeOracle)
    (sessionId : String) (now : Int) (st : GatewayState) :
    PostResponse × GatewayState :=
  let res := reserveContainerSlot maxC st.counter
  let st1 : GatewayState := { st with counter := res.2 }
  if res.1 = false then (PostResponse.busy, st1)
  else
    match createWithFallback oracle.create cfg.diskLimit
        (baseContainerConfig cfg sessionId) with
    | Except.error e =>
      (PostResponse.serverError e.msg,
       { st1 with counter := releaseContainerSlot st1.counter })
    | Except.ok _ =>
      match oracle.startResult with
      | Except.error e =>
        (PostResponse.serverError e.msg,
         { st1 with counter := releaseContainerSlot st1.counter })
      | Except.ok _ =>
        match oracle.persistResult with
        | Except.error e =>
          (PostResponse.serverError e.msg,
           { st1 with counter := releaseContainerSlot st1.counter })
        | Except.ok _ =>
          (PostResponse.ok sessionId "/",
           setSession st1 sessionId
             { containerName := "sess_" ++ sessionId,
               workspacePath := "/", createdAt := now, lastActive := now })

theorem reserve_granted_state (M : Int) (s : CounterState)
    (h : (reserveContainerSlot M s).1 = true) :
    (reserveContainerSlot M s).2 = some (counterVal s + 1) := by
  simp only [reserveContainerSlot, luaReserve, bne_iff_ne, ne_eq] at h ⊢
  split_ifs at h ⊢ with hif
  · simp at h
  · rfl

/-- C5: whenever a provisioning request ends in the 500 path — which can
only happen after the slot was granted, whether creation, start or the
session write failed — the slot has been released, so the capacity
counter ends at its initial value: the net effect is zero. -/
theorem failed_provision_net_zero (cfg : GatewayConfig) (maxC : Int)
    (oracle : RuntimeOracle) (sid : String) (now : Int) (st : GatewayState)
    (hc : 0 ≤ counterVal st.counter) (m : String)
    (hfail : (postContainer cfg maxC oracle sid now st).1
      = PostResponse.serverError m) :
    counterVal (postContainer cfg maxC oracle sid now st).2.counter
      = counterVal st.counter := by
  unfold postContainer at hfail ⊢
  by_cases hres : (reserveContainerSlot maxC st.counter).1 = false
  · rw [if_pos hres] at hfail
    cases hfail
  · rw [if_neg hres] at hfail ⊢
    have hgr : (reserveContainerSlot maxC st.counter).1 = true := by
      revert hres
      cases (reserveContainerSlot maxC st.counter).1 <;> simp
    have hstep := reserve_granted_state maxC st.counter hgr
    have hrel : releaseContainerSlot (reserveContainerSlot maxC st.counter).2
        = some (counterVal st.counter) := by
      rw [releaseContainerSlot_eq, hstep]
      simp only [counterVal, Option.getD_some] at hc ⊢
      congr 1
      omega
    cases hcr : createWithFallback oracle.create cfg.diskLimit
        (baseContainerConfig cfg sid) with
    | error e => simp [hrel, counterVal]
    | ok u =>
      cases hst : oracle.startResult with
      | error e => simp [hrel, counterVal]
      | ok v =>
        cases hpr : oracle.persistResult with
        | error e => simp [hrel, counterVal]
        | ok w =>
          rw [hcr, hst, hpr] at hfail
          cases hfail

/-- Oracle for the C5 witness: creation succeeds but the container fails
to start. -/
def failStartOracle : RuntimeOracle :=
  { create := fun _ => Except.ok (),
    startResult := Except.error ⟨ErrClass.other, "start failed"⟩,
    persistResult := Except.ok () }

/-- Witness for C5: with the counter at 3 and a start failure, the
request answers 500 and the counter is back at 3. -/
theorem failed_provision_net_zero_witness :
    counterVal (postContainer defaultCfg 10 failStartOracle "abc" 0
      ⟨some 3, [], []⟩).2.counter = counterVal (some 3) :=
  failed_provision_net_zero defaultCfg 10 failStartOracle "abc" 0
    ⟨some 3, [], []⟩ (by decide) "start failed" (by decide)

/-- Oracle in which every runtime and store call succeeds. -/
def okOracle : RuntimeOracle :=
  { create := fun _ => Except.ok (),
    startResult := Except.ok (),
    persistResult := Except.ok () }

/-- C10: on every successful provisioning, for any configuration, the
session record that is stored and the workspacePath in the 200 response
are the constant "/" (src/index.js line 184), even though the container
is launched with the environment variable WORKSPACE_PATH=/workspace
(line 134). -/
theorem workspace_path_constant (cfg : GatewayConfig) (maxC : Int)
    (oracle : RuntimeOracle) (sid : String) (now : Int) (st : GatewayState)
    (hg : (reserveContainerSlot maxC st.counter).1 = true)
    (hcr : createWithFallback oracle.create cfg.diskLimit
      (baseContainerConfig cfg sid) = Except.ok ())
    (hst2 : oracle.startResult = Except.ok ())
    (hpr : oracle.persistResult = Except.ok ()) :
    (postContainer cfg maxC oracle sid now st).1 = PostResponse.ok sid "/"
    ∧ getSession (postContainer cfg maxC oracle sid now st).2 sid
      = some { containerName := "sess_" ++ sid, workspacePath := "/",
               createdAt := now, lastActive := now }
    ∧ "WORKSPACE_PATH=/workspace" ∈ (baseContainerConfig cfg sid).env := by
  have hres : ¬ (reserveContainerSlot maxC st.counter).1 = false := by
    simp [hg]
  unfold postContainer
  rw [if_neg hres, hcr, hst2, hpr]
  refine ⟨rfl, ?_, by simp [baseContainerConfig]⟩
  simp [getSession, setSession, redisGetRecord]

/-- Witness for C10 at the default configuration on an empty state. -/
theorem workspace_path_constant_witness :
    (postContainer defaultCfg 10 okOracle "abc" 7 ⟨some 0, [], []⟩).1
      = PostResponse.ok "abc" "/"
    ∧ getSession (postContainer defaultCfg 10 okOracle "abc" 7
        ⟨some 0, [], []⟩).2 "abc"
      = some { containerName := "sess_" ++ "abc", workspacePath := "/",
               createdAt := 7, lastActive := 7 }
    ∧ "WORKSPACE_PATH=/workspace" ∈ (baseContainerConfig defaultCfg "abc").env :=
  workspace_path_constant defaultCfg 10 okOracle "abc" 7 ⟨some 0, [], []⟩
    (by decide) rfl rfl rfl

/-- A JSON scalar as used in response bodies. -/
inductive JVal
  | str (s : String)
  | num (n : Int)
deriving DecidableEq

/-- The 200 body of GET /api/container/:id as built at src/index.js lines
237-242: exactly the four fields passed to `res.json`. -/
def getOkBody (sid : String) (s : SessionRecord) (status : String) :
    List (String × JVal) :=
  [("sessionId", JVal.str sid),
   ("containerName", JVal.str s.containerName),
   ("workspacePath", JVal.str s.workspacePath),
   ("status", JVal.str status)]

/-- An error from the shared state store (Redis). -/
structure StoreErr where
  msg : String
deriving DecidableEq

/-- An error from the Docker runtime, carrying its HTTP status code. -/
structure DockerErr where
  statusCode : Int
  msg : String
deriving DecidableEq

/-- Responses of the per-id endpoints. -/
inductive IdResponse
  | notFound
  | okGet (body : List (String × JVal))
  | gone
  | okDelete (sessionId : String)
  | serverError (msg : String)
deriving DecidableEq

/-- GET /api/container/:id (src/index.js lines 223-251). The `getSession`
lookup is OUTSIDE the try block: a store failure there escapes the
handler, modelled as `Except.error`; 404 is produced only from a
successful empty lookup. -/
def getContainerById (fetch : Except StoreErr (Option SessionRecord))
    (inspect : Except DockerErr String) (sid : String) :
    Except StoreErr IdResponse :=
  match fetch with
  | Except.error e => Except.error e
  | Except.ok none => Except.ok IdResponse.notFound
  | Except.ok (some s) =>
    match inspect with
    | Except.ok status => Except.ok (IdResponse.okGet (getOkBody sid s status))
    | Except.error e =>
      if e.statusCode = 404 then Except.ok IdResponse.gone
      else Except.ok (IdResponse.serverError e.msg)

/-- DELETE /api/container/:id (src/index.js lines 254-284). The lookup is
outside the try block; stop statuses 304 and 404 are tolerated; any other
stop failure answers 500 without deleting the session. -/
def deleteContainerById (fetch : Except StoreErr (Option SessionRecord))
    (stopR : Except DockerErr Unit) (sid : String) (st : GatewayState) :
    Except StoreErr (IdResponse × GatewayState) :=
  match fetch with
  | Except.error e => Except.error e
  | Except.ok none => Except.ok (IdResponse.notFound, st)
  | Except.ok (some _) =>
    match stopR with
    | Except.ok _ => Except.ok (IdResponse.okDelete sid, deleteSession st sid)
    | Except.error e =>
      if e.statusCode = 304 ∨ e.statusCode = 404 then
        Except.ok (IdResponse.okDelete sid, deleteSession st sid)
      else Except.ok (IdResponse.serverError e.msg, st)

/-- C7: for both per-id endpoints, a store failure during the session
lookup propagates as the store error (a server error, never absorbed),
and the 404 "Session not found" response is produced exactly when the
store successfully answered that no record exists. -/
theorem store_failure_never_not_found
    (fetch : Except StoreErr (Option SessionRecord))
    (inspect : Except DockerErr String) (stopR : Except DockerErr Unit)
    (sid : String) (st : GatewayState) :
    (∀ e, fetch = Except.error e →
      getContainerById fetch inspect sid = Except.error e
      ∧ deleteContainerById fetch stopR sid st = Except.error e)
    ∧ (getContainerById fetch inspect sid = Except.ok IdResponse.notFound
        ↔ fetch = Except.ok none)
    ∧ (deleteContainerById fetch stopR sid st
          = Except.ok (IdResponse.notFound, st)
        ↔ fetch = Except.ok none) := by
  refine ⟨?_, ?_, ?_⟩
  · intro e he
    subst he
    exact ⟨rfl, rfl⟩
  · cases fetch with
    | error e => simp [getContainerById]
    | ok o =>
      cases o with
      | none => simp [getContainerById]
      | some s =>
        simp only [getContainerById]
        cases inspect with
        | ok status => simp
        | error e =>
          by_cases h404 : e.statusCode = 404
          · simp [h404]
          · simp [h404]
  · cases fetch with
    | error e => simp [deleteContainerById]
    | ok o =>
      cases o with
      | none => simp [deleteContainerById]
      | some s =>
        simp only [deleteContainerById]
        cases stopR with
        | ok u => simp
        | error e =>
          by_cases htol : e.statusCode = 304 ∨ e.statusCode = 404
          · simp [htol]
          · simp [htol]

/-- Witness for C7: a concrete unreachable-store error propagates from
both endpoints. -/
theorem store_failure_never_not_found_witness :
    getContainerById (Except.error ⟨"redis down"⟩) (Except.ok "running") "x"
      = Except.error ⟨"redis down"⟩
    ∧ deleteContainerById (Except.error ⟨"redis down"⟩) (Except.ok ()) "x"
        ⟨some 1, [], []⟩
      = Except.error ⟨"redis down"⟩ :=
  (store_failure_never_not_found (Except.error ⟨"redis down"⟩)
    (Except.ok "running") (Except.ok ()) "x" ⟨some 1, [], []⟩).1
    ⟨"redis down"⟩ rfl

/-- C8 fails on the code: the 200 body of GET /api/container/:id contains
exactly the fields sessionId, containerName, workspacePath and status —
`createdAt` and `lastActive` are destructured from the record at line 231
but omitted from `res.json` (lines 237-242), though the spec lists them
in the response. Evaluated here at a concrete session. -/
theorem get_body_missing_timestamps :
    (getOkBody "abc" ⟨"sess_abc", "/", 11, 22⟩ "running").map Prod.fst
      = ["sessionId", "containerName", "workspacePath", "status"]
    ∧ "createdAt" ∉ (getOkBody "abc" ⟨"sess_abc", "/", 11, 22⟩ "running").map Prod.fst
    ∧ "lastActive" ∉ (getOkBody "abc" ⟨"sess_abc", "/", 11, 22⟩ "running").map Prod.fst
    ∧ getContainerById (Except.ok (some ⟨"sess_abc", "/", 11, 22⟩))
        (Except.ok "running") "abc"
      = Except.ok (IdResponse.okGet (getOkBody "abc" ⟨"sess_abc", "/", 11, 22⟩ "running")) :=
  ⟨by decide, by decide, by decide, rfl⟩
